import Mathlib

/-!
Shallow embedding of the `upgrade` command (`src/cli/commands/upgrade.js`)
and of the resolver/lockfile core it consumes, together with the audit-api
fixture (`__tests__/commands/audit.js`).

JS strings become `String`, JS objects become structures, the module-level
regular expressions become executable Lean functions modelling the exact
JavaScript regex semantics (including the `lastIndex` statefulness of the
`g`-flagged `validScopeRegex`), and the `await`ed results of external calls
(`PackageRequest.getOutdatedPackages`, `PackageRequest.normalizePattern`)
become explicit parameters.
-/

/-- JS `String.prototype.startsWith`, computed on the character list (the
strings involved are ASCII, so code units and characters coincide). -/
def jsStartsWith (s p : String) : Bool := p.data.isPrefixOf s.data

/-- JS `String.prototype.endsWith`, computed on the character list. -/
def jsEndsWith (s p : String) : Bool := p.data.isSuffixOf s.data

/-- Drop the first `n` characters of a string. -/
def jsDrop (s : String) (n : Nat) : String := ⟨s.data.drop n⟩

namespace Upgrade

/-- The `Dependency` record of the outdated check (`src/types.js` shape, as
used by `upgrade.js`): name, current, wanted, latest, range, url, hint and
the mutable `latestPattern` field written by `getOutdated`/`run`. -/
structure Dependency where
  name : String
  current : String
  wanted : String
  latest : String
  range : String
  url : String
  hint : String
  latestPattern : String
deriving Repr, DecidableEq

/-- The flags object handed to the upgrade command: the four boolean flags
it reads (`latest`, `caret`, `tilde`, `exact`), the optional `--scope`
string (`none` = not supplied; the empty string is falsy in JS and treated
like an absent scope by `if (flags.scope)`), and `others`, the remaining
key/value entries of the open JS object, carried along to express frame
conditions. -/
structure Flags where
  latest : Bool
  caret : Bool
  tilde : Bool
  exact : Bool
  scope : Option String
  others : List (String × String)
deriving Repr, DecidableEq

/-! ### `basicSemverOperatorRegex = /^(\^|~|>|<=|>=)?[^ |&,]+$/`

`exec` on this anchored regex: the optional capture group tries the
alternatives in source order (`^`, `~`, `>`, `<=`, `>=`), then the empty
match; after the group, `[^ |&,]+$` must consume the whole remainder, i.e.
the remainder is nonempty and free of space, `|`, `&` and `,`.  The result
of `getRangeOperator` is `result[1] || ''` on a match and `'^'` otherwise. -/

/-- `[^ |&,]+$` applied to the remainder of the string: nonempty and no
space, `|`, `&` or `,` anywhere. -/
def semverRestOk (s : String) : Bool :=
  !s.data.isEmpty && s.data.all (fun c => !(c = ' ' || c = '|' || c = '&' || c = ','))

/-- One alternative of the optional capture group: the operator is a literal
prefix and the rest of the string matches `[^ |&,]+$`. -/
def semverOpMatch (s op : String) : Bool :=
  jsStartsWith s op && semverRestOk (jsDrop s op.data.length)

/-- `basicSemverOperatorRegex.exec s` reduced to the value of capture group 1:
`some op` when the regex matches with the group bound to `op`, `some ""` when
it matches with the group empty (or unset — `result[1] || ''` collapses the
two), `none` when `exec` returns `null`.  The alternatives are tried in the
regex's source order, so `">=1.0.0"` is captured as `">"` (the `>`
alternative succeeds first and the remainder `"=1.0.0"` still matches). -/
def basicSemverOperatorGroup (s : String) : Option String :=
  if semverOpMatch s "^" then some "^"
  else if semverOpMatch s "~" then some "~"
  else if semverOpMatch s ">" then some ">"
  else if semverOpMatch s "<=" then some "<="
  else if semverOpMatch s ">=" then some ">="
  else if semverRestOk s then some ""
  else none

/-- `getRangeOperator` (upgrade.js lines 96–99): the captured operator (or
`''`) when the simple-shape regex matches, `'^'` when it does not. -/
def getRangeOperator (version : String) : String :=
  match basicSemverOperatorGroup version with
  | some op => op
  | none => "^"

/-- `buildPatternToUpgradeTo` (upgrade.js lines 103–121). -/
def buildPatternToUpgradeTo (dep : Dependency) (flags : Flags) : String :=
  let toLatest := flags.latest
  let toVersion := if toLatest then dep.latest else dep.range
  let rangeOperator :=
    if toLatest then
      if flags.caret then "^"
      else if flags.tilde then "~"
      else if flags.exact then ""
      else getRangeOperator dep.range
    else ""
  dep.name ++ "@" ++ rangeOperator ++ toVersion

/-! ### `validScopeRegex = /^@[a-zA-Z0-9-][a-zA-Z0-9_.-]*\/$/g`

The regex is anchored at both ends, but it carries the `g` flag and lives at
module scope, so `.test` is stateful: a successful test sets `lastIndex` to
the match end, and the next `.test` starts `exec` at that `lastIndex`; since
`^` can only match at position 0, a nonzero `lastIndex` makes the test fail
and resets `lastIndex` to 0. -/

/-- `[a-zA-Z0-9-]`, the first character after `@`. -/
def scopeFirstChar (c : Char) : Bool :=
  (c.isAlpha || c.isDigit) || c = '-'

/-- `[a-zA-Z0-9_.-]`, the middle characters. -/
def scopeMidChar (c : Char) : Bool :=
  (c.isAlpha || c.isDigit) || c = '_' || c = '.' || c = '-'

/-- Pure (stateless) match of `validScopeRegex` against a whole string:
`@`, one `[a-zA-Z0-9-]` character, any number of `[a-zA-Z0-9_.-]`
characters, then a final `/`. -/
def validScopeMatch (s : String) : Bool :=
  match s.toList with
  | '@' :: c1 :: rest =>
    scopeFirstChar c1 && !rest.isEmpty && rest.getLastD ' ' = '/' &&
      rest.dropLast.all scopeMidChar
  | _ => false

/-- `validScopeRegex.test s` with the regex's persistent `lastIndex` made
explicit: returns the boolean result and the new `lastIndex`.  A match (only
possible from `lastIndex = 0` because of the `^` anchor) advances `lastIndex`
to the end of the matched string; any failure resets it to 0. -/
def validScopeTest (lastIndex : Nat) (s : String) : Bool × Nat :=
  if lastIndex = 0 && validScopeMatch s then (true, s.length) else (false, 0)

/-! ### `getOutdated` (upgrade.js lines 83–151)

The `await PackageRequest.getOutdatedPackages(...)` result is passed in as
`outdatedPackages`; the `validScopeRegex` module state is passed in and
returned as `scopeRegexLastIndex`. -/

/-- The `.filter(dep => dep.current != dep[outdatedFieldName])` step, with
`outdatedFieldName = flags.latest ? 'latest' : 'wanted'` (lines 91, 123–125). -/
def outdatedFilter (flags : Flags) (outdatedPackages : List Dependency) : List Dependency :=
  outdatedPackages.filter
    (fun d => d.current != (if flags.latest then d.latest else d.wanted))

/-- Result of the scope-handling block: the (possibly rewritten) flags, the
(possibly filtered) dependency list, and the regex's new `lastIndex`. -/
structure ScopeStepResult where
  flags : Flags
  deps : List Dependency
  lastIndex : Nat
deriving Repr, DecidableEq

/-- The `--scope` normalization: prepend `@` when missing, then append `/`
when missing (lines 128–134). -/
def normalizeScope (s0 : String) : String :=
  let s1 := if jsStartsWith s0 "@" then s0 else "@" ++ s0
  if jsEndsWith s1 "/" then s1 else s1 ++ "/"

/-- The `if (flags.scope) { ... }` block (lines 127–139): when the scope is
present and truthy, rewrite `flags.scope` to its normalized form and, when
the (stateful) `validScopeRegex.test` accepts it, keep only the dependencies
whose name starts with the normalized scope. -/
def scopeStep (flags : Flags) (deps : List Dependency) (lastIndex : Nat) : ScopeStepResult :=
  match flags.scope with
  | some s0 =>
    if s0 = "" then ⟨flags, deps, lastIndex⟩
    else
      let s2 := normalizeScope s0
      let t := validScopeTest lastIndex s2
      ⟨{ flags with scope := some s2 },
       if t.1 then deps.filter (fun d => jsStartsWith d.name s2) else deps,
       t.2⟩
  | none => ⟨flags, deps, lastIndex⟩

/-- The `if (!flags.latest) { flags.tilde = false; flags.exact = false;
flags.caret = false }` step (lines 141–146). -/
def latestFlagsStep (flags : Flags) : Flags :=
  if !flags.latest then { flags with tilde := false, exact := false, caret := false }
  else flags

/-- What `getOutdated` hands back: the dependency list (with `latestPattern`
filled in), the flags object as mutated in place, and the regex state. -/
structure GetOutdatedResult where
  deps : List Dependency
  flags : Flags
  scopeRegexLastIndex : Nat
deriving Repr, DecidableEq

/-- The `deps.forEach(dep => (dep.latestPattern = buildPatternToUpgradeTo(dep, flags)))`
assignment (line 148), for one record. -/
def setLatestPattern (flags : Flags) (d : Dependency) : Dependency :=
  { d with latestPattern := buildPatternToUpgradeTo d flags }

/-- `getOutdated` (lines 83–151): filter to the actually-outdated records,
apply scope normalization/filtering, clear the operator flags when
`--latest` is absent, then write `latestPattern` on every surviving record
via `buildPatternToUpgradeTo`. -/
def getOutdated (flags : Flags) (outdatedPackages : List Dependency)
    (scopeRegexLastIndex : Nat) : GetOutdatedResult :=
  let deps0 := outdatedFilter flags outdatedPackages
  let s := scopeStep flags deps0 scopeRegexLastIndex
  let flags2 := latestFlagsStep s.flags
  ⟨s.deps.map (setLatestPattern flags2), flags2, s.lastIndex⟩

/-! ### The `run` pipeline up to the `Add` hand-off (upgrade.js lines 36–80)

`PackageRequest.normalizePattern` is external to the visible slice, so each
CLI argument arrives already normalized as a `NormalizedPattern` (the
`{name, range, hasVersion}` shape the spec's Pattern Parser produces). -/

/-- The `{name, range, hasVersion}` result of `PackageRequest.normalizePattern`. -/
structure NormalizedPattern where
  name : String
  range : String
  hasVersion : Bool
deriving Repr, DecidableEq

/-- One iteration of the `args.forEach(requestedPattern => ...)` override
loop (lines 41–65): when the argument carries an explicit version, rewrite
`latestPattern` on every matching dep, and push a fresh stub record when no
dep matched. -/
def applyOverride (deps : List Dependency) (normalized : NormalizedPattern) : List Dependency :=
  let newPattern := normalized.name ++ "@" ++ normalized.range
  let found := deps.any (fun d => normalized.hasVersion && d.name == normalized.name)
  let deps := deps.map (fun d =>
    if normalized.hasVersion && d.name == normalized.name then
      { d with latestPattern := newPattern }
    else d)
  if normalized.hasVersion && !found then
    deps ++ [{ name := normalized.name, wanted := "", latest := "", url := "", hint := "",
               range := "", current := "", latestPattern := newPattern }]
  else deps

/-- The dependency list as it stands after `getOutdated` and the whole
argument-override loop, i.e. the `deps` that `run` goes on to evict from the
lockfile and to feed to `Add` (lines 38–65). -/
def upgradeDeps (flags : Flags) (outdatedPackages : List Dependency)
    (scopeRegexLastIndex : Nat) (args : List NormalizedPattern) : List Dependency :=
  args.foldl applyOverride (getOutdated flags outdatedPackages scopeRegexLastIndex).deps

/-- A lockfile entry, as the spec's data model records it:
`pattern → {version, integrity, requires}`. -/
structure LockEntry where
  version : String
  integrity : String
  requires : List (String × String)
deriving Repr, DecidableEq

/-- The in-memory lockfile: an association of pattern strings to entries. -/
abbrev Lockfile := List (String × LockEntry)

/-- Modelled from the spec: `removePattern(pattern)` of the Lockfile
component (`src/lockfile/wrapper.js` is outside the visible slice) "evicts a
pattern's entry so the next `resolve` treats it as fresh"; entries for every
other pattern are untouched. -/
def removePattern (lf : Lockfile) (pattern : String) : Lockfile :=
  lf.filter (fun e => e.1 != pattern)

/-- The lockfile as it stands right before `new Add(...)` is constructed in
`run` (lines 67–79): on the early `allDependenciesUpToDate` return nothing is
evicted, otherwise `deps.forEach(dep => lockfile.removePattern(dep.latestPattern))`
runs over the final dependency list. -/
def runUpgradeEvictedLockfile (flags : Flags) (outdatedPackages : List Dependency)
    (scopeRegexLastIndex : Nat) (args : List NormalizedPattern)
    (lockfile : Lockfile) : Lockfile :=
  let deps := upgradeDeps flags outdatedPackages scopeRegexLastIndex args
  if deps.isEmpty then lockfile
  else deps.foldl (fun lf d => removePattern lf d.latestPattern) lockfile

end Upgrade

namespace Resolver

/-!
The resolver/lockfile core is outside the visible slice (`src/` only holds
its consumers), so this section is modelled from the spec: the Manifest data
model (§3), the Range Resolver policy "collect all versions that satisfy the
range, pick the highest satisfying version" (§4.2, glossary: wanted/latest),
the BFS Resolution Queue with memoization on the pattern string (§4.3), and
the audit payload shape (§6).  The concrete package data comes from the
audit test fixture in the visible slice (`__tests__/commands/audit.js`).
-/

/-- Modelled from the spec: a remote package descriptor — name, version,
declared `requires` (name → range), and the published integrity hash (§3
"Manifest"). -/
structure Manifest where
  name : String
  version : String
  integrity : String
  requires : List (String × String)
deriving Repr, DecidableEq

/-- Split a character list on a separator character. -/
def splitOnChar (sep : Char) : List Char → List (List Char)
  | [] => [[]]
  | c :: rest =>
    let r := splitOnChar sep rest
    if c = sep then [] :: r
    else
      match r with
      | [] => [[c]]
      | h :: t => (c :: h) :: t

/-- Read a nonempty all-digit character list as a natural number. -/
def natOfDigits : List Char → Option Nat
  | [] => none
  | cs =>
    cs.foldl
      (fun acc c =>
        match acc with
        | none => none
        | some n => if c.isDigit then some (n * 10 + (c.toNat - '0'.toNat)) else none)
      (some 0)

/-- Parse a dotted `major.minor.patch` version. -/
def parseVersion (s : String) : Option (Nat × Nat × Nat) :=
  match (splitOnChar '.' s.data).map natOfDigits with
  | [some a, some b, some c] => some (a, b, c)
  | _ => none

/-- Lexicographic strict order on parsed version triples. -/
def tripleLt : Nat × Nat × Nat → Nat × Nat × Nat → Bool
  | (a, b, c), (x, y, z) =>
    a < x || (a = x && (b < y || (b = y && c < z)))

/-- Modelled from the spec: whether a concrete `version` satisfies a `range`
(§3, glossary "Range").  The fixture's ranges are caret ranges and exact
versions, so those are the shapes modelled: `^a.b.c` admits every version
that is at least `a.b.c` and keeps the leftmost nonzero component (standard
caret semantics), and any other range is an exact version. -/
def satisfies (range version : String) : Bool :=
  if jsStartsWith range "^" then
    match parseVersion (jsDrop range 1), parseVersion version with
    | some (a, b, c), some (x, y, z) =>
      (!tripleLt (x, y, z) (a, b, c)) &&
        (if a > 0 then x = a
         else if b > 0 then x = 0 && y = b
         else x = 0 && y = 0 && z = c)
    | _, _ => false
  else version = range

/-- Modelled from the spec: the Range Resolver's choice for one requester —
among the published versions of `name`, the highest that satisfies `range`
(§4.2 tie-break "pick the highest semantic version"; glossary "wanted"). -/
def pickHighestSatisfying (registry : List Manifest) (name range : String) : Option Manifest :=
  (registry.filter (fun m => m.name == name && satisfies range m.version)).foldl
    (fun best m =>
      match best with
      | none => some m
      | some b =>
        match parseVersion b.version, parseVersion m.version with
        | some vb, some vm => if tripleLt vb vm then some m else some b
        | _, _ => some b)
    none

/-- Modelled from the spec: the Resolution Queue driven to completion (§4.3,
§4.4 `resolve`): a FIFO of pending `name@range` requests; a dequeued pattern
already present in the accumulated resolution short-circuits (memoization),
otherwise its manifest is chosen by the Range Resolver and its `requires`
are enqueued.  `fuel` bounds the iteration count to keep the function
structurally recursive; `none` means the fuel ran out or a range was
unsatisfiable against the registry. -/
def resolveAll (registry : List Manifest) :
    Nat → List (String × String) → List (String × Manifest) →
    Option (List (String × Manifest))
  | 0, _, _ => none
  | _ + 1, [], acc => some acc
  | fuel + 1, (name, range) :: rest, acc =>
    let pattern := name ++ "@" ++ range
    if acc.any (fun e => e.1 == pattern) then
      resolveAll registry fuel rest acc
    else
      match pickHighestSatisfying registry name range with
      | none => none
      | some m => resolveAll registry fuel (rest ++ m.requires) (acc ++ [(pattern, m)])

/-- Modelled from the spec: the lockfile produced by a resolution run — one
entry per resolved pattern, recording version, integrity and resolved
sub-requirements (§3 "Lockfile entry"). -/
def lockfileOfResolution (resolved : List (String × Manifest)) : Upgrade.Lockfile :=
  resolved.map (fun e => (e.1, ⟨e.2.version, e.2.integrity, e.2.requires⟩))

/-- The registry behind the `single-vulnerable-dep-installed` audit fixture:
the four packages whose resolved versions and integrity hashes the test
records, plus a lower published version of `brace-expansion` so that the
`^1.0.0` range genuinely exercises the highest-satisfying choice. -/
def auditFixtureRegistry : List Manifest :=
  [⟨"minimatch", "3.0.0", "sha1-UjYVelHk8ATBd/s8Un/33Xjw74M=",
      [("brace-expansion", "^1.0.0")]⟩,
   ⟨"brace-expansion", "1.0.0", "sha1-older-version",
      [("balanced-match", "^1.0.0"), ("concat-map", "0.0.1")]⟩,
   ⟨"brace-expansion", "1.1.11",
      "sha512-iCuPHDFgrHX7H2vEI/5xpz07zSHB00TpugqhmYtVmMO6518mCuRMoOYFldEBl0g187ufozdaHgWKcYFb61qGiA==",
      [("balanced-match", "^1.0.0"), ("concat-map", "0.0.1")]⟩,
   ⟨"balanced-match", "1.0.0", "sha1-ibTRmasr7kneFk6gK4nORi1xt2c=", []⟩,
   ⟨"concat-map", "0.0.1", "sha1-2Klr13/Wjfd5OnMDajug1UBdR3s=", []⟩]

/-- The resolution of `minimatch@^3.0.0` against `auditFixtureRegistry`:
exactly the four nodes the audit test records, in BFS discovery order. -/
def auditFixtureResolution : List (String × Manifest) :=
  [("minimatch@^3.0.0",
    ⟨"minimatch", "3.0.0", "sha1-UjYVelHk8ATBd/s8Un/33Xjw74M=",
       [("brace-expansion", "^1.0.0")]⟩),
   ("brace-expansion@^1.0.0",
    ⟨"brace-expansion", "1.1.11",
       "sha512-iCuPHDFgrHX7H2vEI/5xpz07zSHB00TpugqhmYtVmMO6518mCuRMoOYFldEBl0g187ufozdaHgWKcYFb61qGiA==",
       [("balanced-match", "^1.0.0"), ("concat-map", "0.0.1")]⟩),
   ("balanced-match@^1.0.0",
    ⟨"balanced-match", "1.0.0", "sha1-ibTRmasr7kneFk6gK4nORi1xt2c=", []⟩),
   ("concat-map@0.0.1",
    ⟨"concat-map", "0.0.1", "sha1-2Klr13/Wjfd5OnMDajug1UBdR3s=", []⟩)]

end Resolver

namespace Audit

/-! ### The audit-api payload (`__tests__/commands/audit.js` lines 48–98) -/

/-- One node of the payload's `dependencies` map:
`{version, integrity, requires, dependencies}`. -/
inductive AuditNode where
  | mk (version : String) (integrity : String) (requires : List (String × String))
       (dependencies : List (String × AuditNode))

/-- The body posted to the audit api, in the shape the test's
`expectedApiPost` literal has. -/
structure AuditPayload where
  name : String
  install : List String
  remove : List String
  metadata : List (String × String)
  requires : List (String × String)
  dependencies : List (String × AuditNode)
  version : String

/-- The `expectedApiPost` literal of the audit test (part_000 lines 49–89):
the body the command must post for the `single-vulnerable-dep-installed`
fixture.  Note that all four resolved packages sit as top-level keys of
`dependencies`, each with an empty nested `dependencies` map, while the
top-level `requires` lists only `minimatch`. -/
def expectedApiPost : AuditPayload :=
  { name := "yarn-test",
    install := [],
    remove := [],
    metadata := [],
    requires := [("minimatch", "^3.0.0")],
    dependencies :=
      [("minimatch",
        .mk "3.0.0" "sha1-UjYVelHk8ATBd/s8Un/33Xjw74M="
          [("brace-expansion", "^1.0.0")] []),
       ("brace-expansion",
        .mk "1.1.11"
          "sha512-iCuPHDFgrHX7H2vEI/5xpz07zSHB00TpugqhmYtVmMO6518mCuRMoOYFldEBl0g187ufozdaHgWKcYFb61qGiA=="
          [("balanced-match", "^1.0.0"), ("concat-map", "0.0.1")] []),
       ("balanced-match",
        .mk "1.0.0" "sha1-ibTRmasr7kneFk6gK4nORi1xt2c=" [] []),
       ("concat-map",
        .mk "0.0.1" "sha1-2Klr13/Wjfd5OnMDajug1UBdR3s=" [] [])],
    version := "0.0.0" }

/-- Modelled from the spec (§6 audit payload interface) as the test fixture
pins it down: the payload for a resolved graph carries the root project's
name/version/`requires`, and a `dependencies` map with one top-level entry
per resolved package, keyed by package name, each entry holding that
package's version, integrity and `requires`, with an empty nested
`dependencies` map (the graph is emitted flattened). -/
def buildAuditPayload (rootName rootVersion : String)
    (rootRequires : List (String × String))
    (resolved : List (String × Resolver.Manifest)) : AuditPayload :=
  { name := rootName,
    install := [],
    remove := [],
    metadata := [],
    requires := rootRequires,
    dependencies :=
      resolved.map (fun e => (e.2.name, .mk e.2.version e.2.integrity e.2.requires [])),
    version := rootVersion }

end Audit

/-! ## Helper lemmas -/

namespace Upgrade

theorem scopeStep_flags_latest (flags : Flags) (deps : List Dependency) (li : Nat) :
    (scopeStep flags deps li).flags.latest = flags.latest := by
  unfold scopeStep
  cases hs : flags.scope <;> simp only
  split <;> rfl

theorem scopeStep_flags_caret (flags : Flags) (deps : List Dependency) (li : Nat) :
    (scopeStep flags deps li).flags.caret = flags.caret := by
  unfold scopeStep
  cases hs : flags.scope <;> simp only
  split <;> rfl

theorem scopeStep_flags_tilde (flags : Flags) (deps : List Dependency) (li : Nat) :
    (scopeStep flags deps li).flags.tilde = flags.tilde := by
  unfold scopeStep
  cases hs : flags.scope <;> simp only
  split <;> rfl

theorem scopeStep_flags_exact (flags : Flags) (deps : List Dependency) (li : Nat) :
    (scopeStep flags deps li).flags.exact = flags.exact := by
  unfold scopeStep
  cases hs : flags.scope <;> simp only
  split <;> rfl

theorem scopeStep_flags_others (flags : Flags) (deps : List Dependency) (li : Nat) :
    (scopeStep flags deps li).flags.others = flags.others := by
  unfold scopeStep
  cases hs : flags.scope <;> simp only
  split <;> rfl

theorem mem_scopeStep_deps {flags : Flags} {deps : List Dependency} {li : Nat}
    {d : Dependency} (h : d ∈ (scopeStep flags deps li).deps) : d ∈ deps := by
  cases hs : flags.scope with
  | none => simpa [scopeStep, hs] using h
  | some s0 =>
    by_cases h0 : s0 = ""
    · simpa [scopeStep, hs, h0] using h
    · by_cases ht : (validScopeTest li (normalizeScope s0)).1 = true
      · simp only [scopeStep, hs, h0, ht, if_true, if_false, if_neg, List.mem_filter] at h
        simp_all
      · simp only [scopeStep, hs, h0, ht] at h
        simp_all

theorem getOutdated_deps_eq (flags : Flags) (od : List Dependency) (li : Nat) :
    (getOutdated flags od li).deps =
      (scopeStep flags (outdatedFilter flags od) li).deps.map
        (setLatestPattern
          (latestFlagsStep (scopeStep flags (outdatedFilter flags od) li).flags)) := rfl

theorem getOutdated_flags_eq (flags : Flags) (od : List Dependency) (li : Nat) :
    (getOutdated flags od li).flags =
      latestFlagsStep (scopeStep flags (outdatedFilter flags od) li).flags := rfl

theorem latestFlagsStep_of_latest {f : Flags} (h : f.latest = true) :
    latestFlagsStep f = f := by
  simp [latestFlagsStep, h]

theorem buildPattern_no_latest {flags : Flags} (d : Dependency)
    (h : flags.latest = false) :
    buildPatternToUpgradeTo d flags = d.name ++ "@" ++ d.range := by
  simp [buildPatternToUpgradeTo, h]

theorem latestFlagsStep_latest (f : Flags) :
    (latestFlagsStep f).latest = f.latest := by
  unfold latestFlagsStep
  split <;> rfl

theorem latestFlagsStep_scope (f : Flags) :
    (latestFlagsStep f).scope = f.scope := by
  unfold latestFlagsStep
  split <;> rfl

theorem latestFlagsStep_others (f : Flags) :
    (latestFlagsStep f).others = f.others := by
  unfold latestFlagsStep
  split <;> rfl

theorem append_append_lit (s w : String) {t u v : String} (h : t ++ u = v) :
    s ++ t ++ u ++ w = s ++ v ++ w := by
  rw [String.append_assoc s t u, h]

theorem buildPattern_latest_caret {flags : Flags} (d : Dependency)
    (hl : flags.latest = true) (hc : flags.caret = true) :
    buildPatternToUpgradeTo d flags = d.name ++ "@^" ++ d.latest := by
  simp only [buildPatternToUpgradeTo, hl, hc, if_true]
  exact append_append_lit d.name d.latest rfl

theorem buildPattern_latest_tilde {flags : Flags} (d : Dependency)
    (hl : flags.latest = true) (hc : flags.caret = false) (ht : flags.tilde = true) :
    buildPatternToUpgradeTo d flags = d.name ++ "@~" ++ d.latest := by
  simp only [buildPatternToUpgradeTo, hl, hc, ht, if_true, if_false, Bool.false_eq_true]
  exact append_append_lit d.name d.latest rfl

theorem buildPattern_latest_exact {flags : Flags} (d : Dependency)
    (hl : flags.latest = true) (hc : flags.caret = false) (ht : flags.tilde = false)
    (he : flags.exact = true) :
    buildPatternToUpgradeTo d flags = d.name ++ "@" ++ d.latest := by
  simp only [buildPatternToUpgradeTo, hl, hc, ht, he, if_true, if_false, Bool.false_eq_true]
  exact append_append_lit d.name d.latest rfl

theorem buildPattern_latest_default {flags : Flags} (d : Dependency)
    (hl : flags.latest = true) (hc : flags.caret = false) (ht : flags.tilde = false)
    (he : flags.exact = false) :
    buildPatternToUpgradeTo d flags =
      d.name ++ "@" ++ getRangeOperator d.range ++ d.latest := by
  simp only [buildPatternToUpgradeTo, hl, hc, ht, he, if_true, if_false, Bool.false_eq_true]

theorem scopeStep_congr (flags flags' : Flags) (deps : List Dependency) (li : Nat)
    (h : flags'.scope = flags.scope) :
    (scopeStep flags' deps li).deps = (scopeStep flags deps li).deps ∧
    (scopeStep flags' deps li).lastIndex = (scopeStep flags deps li).lastIndex := by
  cases hs : flags.scope with
  | none => rw [hs] at h; simp [scopeStep, hs, h]
  | some s0 =>
    rw [hs] at h
    by_cases h0 : s0 = ""
    · simp [scopeStep, hs, h, h0]
    · by_cases ht : (validScopeTest li (normalizeScope s0)).1 = true <;>
        simp [scopeStep, hs, h, h0, ht]

theorem outdatedFilter_congr {flags flags' : Flags} (od : List Dependency)
    (hl : flags.latest = false) (hl' : flags'.latest = false) :
    outdatedFilter flags' od = outdatedFilter flags od := by
  simp [outdatedFilter, hl, hl']

theorem scopeStep_some_valid (flags : Flags) (deps : List Dependency) (s0 : String)
    (hs : flags.scope = some s0) (h0 : s0 ≠ "")
    (hv : validScopeMatch (normalizeScope s0) = true) :
    scopeStep flags deps 0 =
      ⟨{ flags with scope := some (normalizeScope s0) },
       deps.filter (fun d => jsStartsWith d.name (normalizeScope s0)),
       (normalizeScope s0).length⟩ := by
  simp [scopeStep, hs, h0, validScopeTest, hv]

end Upgrade

/-! ## Claims -/

namespace Claims

open Upgrade

/-- C1: with `--latest` and `--caret`, the pattern built to upgrade to is
`dep.name ++ "@^" ++ dep.latest` — both as `buildPatternToUpgradeTo`
computes it and as `getOutdated` stores it in `latestPattern` — and the
operator-flag precedence under `--latest` is caret over tilde over exact
(`--tilde` yields `~` only when `--caret` is off, `--exact` yields the empty
operator only when both are off). -/
theorem upgrade_latest_caret_builds_caret_pattern
    (flags : Flags) (outdatedPackages : List Dependency) (lastIndex : Nat)
    (dep : Dependency) (hl : flags.latest = true) :
    (flags.caret = true →
      buildPatternToUpgradeTo dep flags = dep.name ++ "@^" ++ dep.latest ∧
      ∀ d ∈ (getOutdated flags outdatedPackages lastIndex).deps,
        d.latestPattern = d.name ++ "@^" ++ d.latest) ∧
    (flags.caret = false → flags.tilde = true →
      buildPatternToUpgradeTo dep flags = dep.name ++ "@~" ++ dep.latest) ∧
    (flags.caret = false → flags.tilde = false → flags.exact = true →
      buildPatternToUpgradeTo dep flags = dep.name ++ "@" ++ dep.latest) := by
  refine ⟨fun hc => ⟨buildPattern_latest_caret dep hl hc, ?_⟩,
          fun hc ht => buildPattern_latest_tilde dep hl hc ht,
          fun hc ht he => buildPattern_latest_exact dep hl hc ht he⟩
  intro d hd
  rw [getOutdated_deps_eq] at hd
  obtain ⟨d0, hd0, rfl⟩ := List.mem_map.mp hd
  set S := scopeStep flags (outdatedFilter flags outdatedPackages) lastIndex with hS
  have hSl : S.flags.latest = true := by
    rw [hS, scopeStep_flags_latest]; exact hl
  have hstep : latestFlagsStep S.flags = S.flags := latestFlagsStep_of_latest hSl
  have hSc : S.flags.caret = true := by
    rw [hS, scopeStep_flags_caret]; exact hc
  show buildPatternToUpgradeTo d0 (latestFlagsStep S.flags) = _
  rw [hstep, buildPattern_latest_caret d0 hSl hSc]
  rfl

/-- C1 witness: a package currently locked at `1.2.0` with published latest
`2.0.0`, upgraded with `--latest --caret`, gets the pattern `name@^2.0.0`. -/
theorem upgrade_latest_caret_builds_caret_pattern_witness :
    buildPatternToUpgradeTo ⟨"name", "1.2.0", "1.2.5", "2.0.0", "^1.2.0", "", "", ""⟩
      ⟨true, true, false, false, none, []⟩ = "name@^2.0.0" :=
  ((upgrade_latest_caret_builds_caret_pattern ⟨true, true, false, false, none, []⟩ []
      0 ⟨"name", "1.2.0", "1.2.5", "2.0.0", "^1.2.0", "", "", ""⟩ rfl).1 rfl).1

/-- C2: without `--latest`, every dependency `getOutdated` returns has
`latestPattern = dep.name ++ "@" ++ dep.range` (the declared range is
preserved verbatim), and the `--tilde`/`--exact`/`--caret` flags have no
effect: any two flag objects that agree on `latest = false` and on the scope
produce the same dependency list. -/
theorem upgrade_without_latest_preserves_range
    (flags flags' : Flags) (outdatedPackages : List Dependency) (lastIndex : Nat)
    (hl : flags.latest = false) (hl' : flags'.latest = false)
    (hsc : flags'.scope = flags.scope) :
    (∀ d ∈ (getOutdated flags outdatedPackages lastIndex).deps,
      d.latestPattern = d.name ++ "@" ++ d.range) ∧
    (getOutdated flags' outdatedPackages lastIndex).deps =
      (getOutdated flags outdatedPackages lastIndex).deps := by
  constructor
  · intro d hd
    rw [getOutdated_deps_eq] at hd
    obtain ⟨d0, hd0, rfl⟩ := List.mem_map.mp hd
    set S := scopeStep flags (outdatedFilter flags outdatedPackages) lastIndex with hS
    have hSl : (latestFlagsStep S.flags).latest = false := by
      rw [latestFlagsStep_latest, hS, scopeStep_flags_latest]; exact hl
    show buildPatternToUpgradeTo d0 (latestFlagsStep S.flags) = _
    rw [buildPattern_no_latest d0 hSl]
    rfl
  · rw [getOutdated_deps_eq, getOutdated_deps_eq,
      outdatedFilter_congr outdatedPackages hl hl',
      (scopeStep_congr flags flags' (outdatedFilter flags outdatedPackages) lastIndex hsc).1]
    apply List.map_congr_left
    intro d hd
    have h1 : (latestFlagsStep (scopeStep flags' (outdatedFilter flags outdatedPackages)
        lastIndex).flags).latest = false := by
      rw [latestFlagsStep_latest, scopeStep_flags_latest]; exact hl'
    have h2 : (latestFlagsStep (scopeStep flags (outdatedFilter flags outdatedPackages)
        lastIndex).flags).latest = false := by
      rw [latestFlagsStep_latest, scopeStep_flags_latest]; exact hl
    show setLatestPattern _ d = setLatestPattern _ d
    unfold setLatestPattern
    rw [buildPattern_no_latest d h1, buildPattern_no_latest d h2]

/-- C2 witness: without `--latest`, a dependency with declared range
`^1.2.0` keeps it verbatim, and flipping `--caret` on changes nothing. -/
theorem upgrade_without_latest_preserves_range_witness :
    (getOutdated ⟨false, false, false, false, none, []⟩
        [⟨"name", "1.2.0", "1.2.5", "2.0.0", "^1.2.0", "", "", ""⟩] 0).deps.map
        Dependency.latestPattern = ["name@^1.2.0"] ∧
    (getOutdated ⟨false, true, true, true, none, []⟩
        [⟨"name", "1.2.0", "1.2.5", "2.0.0", "^1.2.0", "", "", ""⟩] 0).deps =
      (getOutdated ⟨false, false, false, false, none, []⟩
        [⟨"name", "1.2.0", "1.2.5", "2.0.0", "^1.2.0", "", "", ""⟩] 0).deps := by
  have h := upgrade_without_latest_preserves_range
    ⟨false, false, false, false, none, []⟩ ⟨false, true, true, true, none, []⟩
    [⟨"name", "1.2.0", "1.2.5", "2.0.0", "^1.2.0", "", "", ""⟩] 0 rfl rfl rfl
  exact ⟨by decide, h.2⟩

/-- A dependency whose declared range does not match the simple-shape regex
(it contains spaces): its leading operator is `>=`, but `getRangeOperator`
falls back to `^`. -/
def exoticDep : Dependency :=
  ⟨"name", "1.0.0", "1.5.0", "3.0.0", ">=1.0.0 <2.0.0", "", "", ""⟩

/-- `--latest` with none of `--caret`/`--tilde`/`--exact`. -/
def latestOnlyFlags : Flags := ⟨true, false, false, false, none, []⟩

/-- C3 counterexample: with `--latest` alone, a range that does not match
`^(\^|~|>|<=|>=)?[^ |&,]+$` (here `">=1.0.0 <2.0.0"`, whose leading operator
is `>=`) is NOT preserved: the code builds `name@^3.0.0`, not the
`name@>=3.0.0` the claim predicts.  Even within the simple shape, `">=1.2.0"`
is captured as `">"`, not `">="`, because the regex alternation tries `>`
first. -/
theorem upgrade_operator_preservation_counterexample :
    buildPatternToUpgradeTo exoticDep latestOnlyFlags = "name@^3.0.0" ∧
    buildPatternToUpgradeTo exoticDep latestOnlyFlags ≠ "name@>=3.0.0" ∧
    getRangeOperator ">=1.2.0" = ">" := by decide

/-- C3 as amended: with `--latest` and none of `--caret`/`--tilde`/`--exact`,
the built pattern is `dep.name ++ "@" ++ getRangeOperator dep.range ++ dep.latest`,
where `getRangeOperator` preserves the leading operator only for ranges
matching `^(\^|~|>|<=|>=)?[^ |&,]+$` — with `>=` collapsing to `>` because
the regex alternation tries `>` first — and yields `^` for every range
outside that shape (e.g. ranges containing spaces, `|`, `&` or `,`). -/
theorem upgrade_latest_operator_heuristic
    (dep : Dependency) (flags : Flags) (hl : flags.latest = true)
    (hc : flags.caret = false) (ht : flags.tilde = false) (he : flags.exact = false) :
    buildPatternToUpgradeTo dep flags =
      dep.name ++ "@" ++ getRangeOperator dep.range ++ dep.latest ∧
    getRangeOperator "^1.2.0" = "^" ∧
    getRangeOperator "~1.2.0" = "~" ∧
    getRangeOperator ">1.2.0" = ">" ∧
    getRangeOperator "<=1.2.0" = "<=" ∧
    getRangeOperator ">=1.2.0" = ">" ∧
    getRangeOperator "1.2.0" = "" ∧
    getRangeOperator ">=1.0.0 <2.0.0" = "^" ∧
    getRangeOperator "^1.0.0 || ^2.0.0" = "^" ∧
    getRangeOperator "1.2.0 - 1.5.0" = "^" := by
  exact ⟨buildPattern_latest_default dep hl hc ht he,
    rfl, rfl, rfl, rfl, rfl, rfl, rfl, rfl, rfl⟩

/-- C3 amended-claim witness: the heuristic applied to the exotic-range
dependency under `--latest` alone. -/
theorem upgrade_latest_operator_heuristic_witness :
    buildPatternToUpgradeTo exoticDep latestOnlyFlags =
      "name" ++ "@" ++ getRangeOperator ">=1.0.0 <2.0.0" ++ "3.0.0" :=
  (upgrade_latest_operator_heuristic exoticDep latestOnlyFlags rfl rfl rfl rfl).1

/-- C4: the `--scope` value before normalization. -/
def c4Flags : Flags := ⟨false, false, false, false, some "foo", []⟩

/-- Two outdated packages, one under scope `@foo/`, one unscoped. -/
def scopedPackages : List Dependency :=
  [⟨"@foo/a", "1.0.0", "1.1.0", "2.0.0", "^1.0.0", "", "", ""⟩,
   ⟨"bar", "1.0.0", "1.1.0", "2.0.0", "^1.0.0", "", "", ""⟩]

/-- C4: a supplied `--scope` value is normalized (leading `@` prepended when
missing, trailing `/` appended when missing, as the concrete normalization
equations show), `flags.scope` is rewritten to the normalized form, and for
a valid normalized scope (accepted by `validScopeMatch`, the regex's pure
match, from the regex's initial `lastIndex = 0` state) the returned list
contains exactly the outdated dependencies whose name starts with the
normalized scope: every returned record's name has that prefix, and every
outdated record with that prefix is returned. -/
theorem upgrade_scope_filtering
    (flags : Flags) (outdatedPackages : List Dependency) (s0 : String)
    (hs : flags.scope = some s0) (h0 : s0 ≠ "")
    (hv : validScopeMatch (normalizeScope s0) = true) :
    (normalizeScope "foo" = "@foo/" ∧ normalizeScope "@foo" = "@foo/" ∧
     normalizeScope "foo/" = "@foo/" ∧ normalizeScope "@foo/" = "@foo/") ∧
    (getOutdated flags outdatedPackages 0).flags.scope = some (normalizeScope s0) ∧
    (∀ d ∈ (getOutdated flags outdatedPackages 0).deps,
      jsStartsWith d.name (normalizeScope s0) = true) ∧
    (∀ d ∈ outdatedFilter flags outdatedPackages,
      jsStartsWith d.name (normalizeScope s0) = true →
      d.name ∈ (getOutdated flags outdatedPackages 0).deps.map Dependency.name) := by
  have hstep := scopeStep_some_valid flags (outdatedFilter flags outdatedPackages) s0 hs h0 hv
  refine ⟨⟨rfl, rfl, rfl, rfl⟩, ?_, ?_, ?_⟩
  · rw [getOutdated_flags_eq, latestFlagsStep_scope, hstep]
  · intro d hd
    rw [getOutdated_deps_eq] at hd
    obtain ⟨d0, hd0, rfl⟩ := List.mem_map.mp hd
    rw [hstep] at hd0
    exact (List.mem_filter.mp hd0).2
  · intro d hd hpre
    rw [getOutdated_deps_eq, hstep]
    refine List.mem_map.mpr ⟨setLatestPattern _ d, List.mem_map.mpr ⟨d, ?_, rfl⟩, rfl⟩
    exact List.mem_filter.mpr ⟨hd, hpre⟩

/-- C4 witness: `--scope foo` is normalized to `@foo/` and only `@foo/a`
survives the filter. -/
theorem upgrade_scope_filtering_witness :
    (getOutdated c4Flags scopedPackages 0).flags.scope = some "@foo/" ∧
    (getOutdated c4Flags scopedPackages 0).deps.map Dependency.name = ["@foo/a"] := by
  have h := upgrade_scope_filtering c4Flags scopedPackages "foo" rfl (by decide) (by decide)
  exact ⟨h.2.1, by decide⟩

/-- The same flags object after the first `getOutdated` run: the scope is
already in normalized form. -/
def scopedFlags : Flags := ⟨false, false, false, false, some "@foo/", []⟩

/-- C5: the scope filter is NOT deterministic across successive calls.  The
first call (from the module-level regex's initial `lastIndex = 0`) filters
to the scope and leaves `lastIndex = 5`; the immediately following call with
the same flags, packages and scope skips the filter entirely, because
`validScopeRegex` carries the `g` flag, so `.test` resumes from the stored
`lastIndex` where the `^`-anchored pattern cannot match.  The two calls
return different dependency lists for the same inputs. -/
theorem scope_filter_lost_on_second_call :
    (getOutdated scopedFlags scopedPackages 0).deps.map Dependency.name =
      ["@foo/a"] ∧
    (getOutdated scopedFlags scopedPackages 0).scopeRegexLastIndex = 5 ∧
    (getOutdated (getOutdated scopedFlags scopedPackages 0).flags scopedPackages
        (getOutdated scopedFlags scopedPackages 0).scopeRegexLastIndex).deps.map
        Dependency.name = ["@foo/a", "bar"] ∧
    (getOutdated (getOutdated scopedFlags scopedPackages 0).flags scopedPackages
        (getOutdated scopedFlags scopedPackages 0).scopeRegexLastIndex).deps ≠
      (getOutdated scopedFlags scopedPackages 0).deps := by decide

end Claims

namespace Upgrade

theorem lookup_removePattern (lf : Lockfile) (p q : String) :
    (removePattern lf q).lookup p = if p = q then none else lf.lookup p := by
  induction lf with
  | nil => simp [removePattern]
  | cons e t ih =>
    obtain ⟨k, v⟩ := e
    unfold removePattern at ih ⊢
    rw [List.filter_cons]
    by_cases hkq : k = q
    · rw [if_neg (by simp [hkq])]
      rw [ih]
      by_cases hpq : p = q
      · simp [hpq]
      · have hpk : (p == k) = false := by
          simp only [beq_eq_false_iff_ne, ne_eq, hkq]; exact hpq
        simp [hpq, List.lookup, hpk]
    · rw [if_pos (by simp [hkq])]
      by_cases hpk : p = k
      · have hpq : ¬p = q := by rw [hpk]; exact hkq
        simp [List.lookup, hpk, hpq, hkq]
      · have hpk' : (p == k) = false := by
          simp only [beq_eq_false_iff_ne, ne_eq]; exact hpk
        simp only [List.lookup, hpk']
        exact ih

theorem latestFlagsStep_false {f : Flags} (h : f.latest = false) :
    latestFlagsStep f = { f with tilde := false, exact := false, caret := false } := by
  simp [latestFlagsStep, h]

theorem scopeStep_scope_none {flags : Flags} (deps : List Dependency) (li : Nat)
    (h : flags.scope = none) : (scopeStep flags deps li).flags.scope = none := by
  simp [scopeStep, h]

theorem scopeStep_scope_empty {flags : Flags} (deps : List Dependency) (li : Nat)
    (h : flags.scope = some "") : (scopeStep flags deps li).flags.scope = some "" := by
  simp [scopeStep, h]

theorem scopeStep_scope_some {flags : Flags} (deps : List Dependency) (li : Nat)
    {s0 : String} (h : flags.scope = some s0) (h0 : s0 ≠ "") :
    (scopeStep flags deps li).flags.scope = some (normalizeScope s0) := by
  simp [scopeStep, h, h0]

theorem lookup_foldl_removePattern (deps : List Dependency) (lf : Lockfile) (p : String) :
    ((deps.foldl (fun lf d => removePattern lf d.latestPattern) lf).lookup p =
      if deps.any (fun d => d.latestPattern == p) then none else lf.lookup p) := by
  induction deps generalizing lf with
  | nil => simp
  | cons d t ih =>
    simp only [List.foldl_cons, List.any_cons, ih, lookup_removePattern]
    by_cases h : d.latestPattern = p
    · simp [h]
    · have h' : ¬(p = d.latestPattern) := fun hh => h hh.symm
      simp [h, h', if_neg h']

end Upgrade

namespace Claims

open Upgrade

/-- C6: `run` evicts from the in-memory lockfile exactly the `latestPattern`
of every dependency in the final upgrade list (the `getOutdated` result
after the user-argument override loop), before `Add` is constructed: the
evicted lockfile has no entry for any upgraded pattern, and the entry of
every other pattern is untouched.  (`removePattern` itself is modelled from
the spec, the lockfile component being outside the visible slice.) -/
theorem run_evicts_exactly_upgrade_patterns
    (flags : Flags) (outdatedPackages : List Dependency) (lastIndex : Nat)
    (args : List NormalizedPattern) (lockfile : Lockfile) (p : String) :
    (p ∈ (upgradeDeps flags outdatedPackages lastIndex args).map Dependency.latestPattern →
      (runUpgradeEvictedLockfile flags outdatedPackages lastIndex args lockfile).lookup p =
        none) ∧
    (p ∉ (upgradeDeps flags outdatedPackages lastIndex args).map Dependency.latestPattern →
      (runUpgradeEvictedLockfile flags outdatedPackages lastIndex args lockfile).lookup p =
        lockfile.lookup p) := by
  constructor
  · intro hmem
    simp only [runUpgradeEvictedLockfile]
    have hne : (upgradeDeps flags outdatedPackages lastIndex args).isEmpty = false := by
      obtain ⟨d, hd, _⟩ := List.mem_map.mp hmem
      cases h : upgradeDeps flags outdatedPackages lastIndex args with
      | nil => rw [h] at hd; cases hd
      | cons a l => rfl
    rw [if_neg (by simp [hne]), lookup_foldl_removePattern]
    obtain ⟨d, hd, hdp⟩ := List.mem_map.mp hmem
    rw [if_pos (List.any_eq_true.mpr ⟨d, hd, by simpa using hdp⟩)]
  · intro hmem
    simp only [runUpgradeEvictedLockfile]
    by_cases hemp : (upgradeDeps flags outdatedPackages lastIndex args).isEmpty
    · rw [if_pos hemp]
    · rw [if_neg hemp, lookup_foldl_removePattern, if_neg]
      intro hany
      obtain ⟨d, hd, hdp⟩ := List.any_eq_true.mp hany
      exact hmem (List.mem_map.mpr ⟨d, hd, by simpa using hdp⟩)

/-- The outdated record of the C1 example (`1.2.0` installed, `2.0.0` latest). -/
def upgradeWitnessDep : Dependency :=
  ⟨"name", "1.2.0", "1.2.5", "2.0.0", "^1.2.0", "", "", ""⟩

/-- `--latest --caret`. -/
def latestCaretFlags : Flags := ⟨true, true, false, false, none, []⟩

/-- A lockfile holding the upgraded pattern and one unrelated pattern. -/
def upgradeWitnessLock : Lockfile :=
  [("name@^2.0.0", ⟨"1.2.0", "sha1-aaa", []⟩),
   ("other@^1.0.0", ⟨"1.0.0", "sha1-bbb", []⟩)]

/-- C6 witness: upgrading the C1 example dep evicts its `latestPattern`
`name@^2.0.0` and leaves the unrelated `other@^1.0.0` entry intact. -/
theorem run_evicts_exactly_upgrade_patterns_witness :
    (runUpgradeEvictedLockfile latestCaretFlags [upgradeWitnessDep] 0 []
        upgradeWitnessLock).lookup "name@^2.0.0" = none ∧
    (runUpgradeEvictedLockfile latestCaretFlags [upgradeWitnessDep] 0 []
        upgradeWitnessLock).lookup "other@^1.0.0" =
      some ⟨"1.0.0", "sha1-bbb", []⟩ := by
  constructor
  · exact (run_evicts_exactly_upgrade_patterns latestCaretFlags [upgradeWitnessDep] 0 []
      upgradeWitnessLock "name@^2.0.0").1 (by decide)
  · exact ((run_evicts_exactly_upgrade_patterns latestCaretFlags [upgradeWitnessDep] 0 []
      upgradeWitnessLock "other@^1.0.0").2 (by decide)).trans (by decide)

/-- C7: resolving `minimatch@^3.0.0` against the audit fixture registry —
where `minimatch@3.0.0` requires `brace-expansion@^1.0.0`, which requires
`balanced-match@^1.0.0` and `concat-map@0.0.1` — yields exactly 4 resolved
package nodes with versions `3.0.0`, `1.1.11`, `1.0.0`, `0.0.1`, each
carrying the integrity hash the test records for it, and the resulting
lockfile has the 4 corresponding entries. -/
theorem audit_fixture_resolves_four_packages :
    Resolver.resolveAll Resolver.auditFixtureRegistry 8 [("minimatch", "^3.0.0")] [] =
      some Resolver.auditFixtureResolution ∧
    Resolver.auditFixtureResolution.length = 4 ∧
    Resolver.auditFixtureResolution.map (fun e => (e.2.name, e.2.version)) =
      [("minimatch", "3.0.0"), ("brace-expansion", "1.1.11"),
       ("balanced-match", "1.0.0"), ("concat-map", "0.0.1")] ∧
    Resolver.lockfileOfResolution Resolver.auditFixtureResolution =
      [("minimatch@^3.0.0",
        ⟨"3.0.0", "sha1-UjYVelHk8ATBd/s8Un/33Xjw74M=", [("brace-expansion", "^1.0.0")]⟩),
       ("brace-expansion@^1.0.0",
        ⟨"1.1.11",
         "sha512-iCuPHDFgrHX7H2vEI/5xpz07zSHB00TpugqhmYtVmMO6518mCuRMoOYFldEBl0g187ufozdaHgWKcYFb61qGiA==",
         [("balanced-match", "^1.0.0"), ("concat-map", "0.0.1")]⟩),
       ("balanced-match@^1.0.0",
        ⟨"1.0.0", "sha1-ibTRmasr7kneFk6gK4nORi1xt2c=", []⟩),
       ("concat-map@0.0.1",
        ⟨"0.0.1", "sha1-2Klr13/Wjfd5OnMDajug1UBdR3s=", []⟩)] :=
  ⟨rfl, rfl, rfl, rfl⟩

/-- C8 counterexample: in the audit test's own `expectedApiPost`, the
transitive dependency `brace-expansion` is an additional top-level key of
`dependencies` even though the top-level `requires` map only names
`minimatch` — the top-level `dependencies` map is not keyed by top-level
requirement name only, and transitive dependencies are not nested. -/
theorem audit_payload_transitive_at_top_level :
    ("brace-expansion" ∈ Audit.expectedApiPost.dependencies.map Prod.fst) ∧
    ("brace-expansion" ∉ Audit.expectedApiPost.requires.map Prod.fst) := by
  constructor
  · decide
  · decide

/-- C8 as amended: the audit payload is a nested
`{name, version, integrity, requires, dependencies}` structure whose
top-level `requires` map is keyed by top-level requirement name, but whose
top-level `dependencies` map is keyed by package name with one entry for
EVERY package of the resolved graph — transitive dependencies appear as
additional top-level keys, each with an empty nested `dependencies` map
(the graph is emitted flattened), as the test's `expectedApiPost` records. -/
theorem audit_payload_is_flattened :
    Audit.buildAuditPayload "yarn-test" "0.0.0" [("minimatch", "^3.0.0")]
        Resolver.auditFixtureResolution = Audit.expectedApiPost ∧
    Audit.expectedApiPost.dependencies.map Prod.fst =
      Resolver.auditFixtureResolution.map (fun e => e.2.name) :=
  ⟨rfl, rfl⟩

/-- C9: every dependency returned by `getOutdated` is genuinely outdated for
the selected target field: `current ≠ latest` under `--latest`, and
`current ≠ wanted` otherwise; up-to-date packages never appear. -/
theorem getOutdated_returns_only_outdated
    (flags : Flags) (outdatedPackages : List Dependency) (lastIndex : Nat) :
    ∀ d ∈ (getOutdated flags outdatedPackages lastIndex).deps,
      (flags.latest = true → d.current ≠ d.latest) ∧
      (flags.latest = false → d.current ≠ d.wanted) := by
  intro d hd
  rw [getOutdated_deps_eq] at hd
  obtain ⟨d0, hd0, rfl⟩ := List.mem_map.mp hd
  have hd1 : d0 ∈ outdatedFilter flags outdatedPackages := mem_scopeStep_deps hd0
  have hne := (List.mem_filter.mp hd1).2
  rw [bne_iff_ne] at hne
  constructor
  · intro hl
    show d0.current ≠ d0.latest
    rw [hl] at hne
    simpa using hne
  · intro hl
    show d0.current ≠ d0.wanted
    rw [hl] at hne
    simpa using hne

/-- C9 witness: the C1 example dep (current `1.2.0`, latest `2.0.0`) passes
the outdated check under `--latest`. -/
theorem getOutdated_returns_only_outdated_witness :
    (setLatestPattern latestCaretFlags upgradeWitnessDep).current ≠
      (setLatestPattern latestCaretFlags upgradeWitnessDep).latest :=
  (getOutdated_returns_only_outdated latestCaretFlags [upgradeWitnessDep] 0
    (setLatestPattern latestCaretFlags upgradeWitnessDep) (by decide)).1 rfl

/-- C10: the in-place mutations `getOutdated` performs on the flags object
are exactly: `scope` rewritten to its normalized form when supplied (a
truthy, i.e. nonempty, string; an absent or empty scope is untouched), and
`tilde`/`exact`/`caret` all cleared when `--latest` is absent (kept intact
when it is present); `latest` and every other field are never modified. -/
theorem getOutdated_mutates_flags_frame
    (flags : Flags) (outdatedPackages : List Dependency) (lastIndex : Nat) :
    ((getOutdated flags outdatedPackages lastIndex).flags.latest = flags.latest) ∧
    ((getOutdated flags outdatedPackages lastIndex).flags.others = flags.others) ∧
    (flags.scope = none →
      (getOutdated flags outdatedPackages lastIndex).flags.scope = none) ∧
    (flags.scope = some "" →
      (getOutdated flags outdatedPackages lastIndex).flags.scope = some "") ∧
    (∀ s0, flags.scope = some s0 → s0 ≠ "" →
      (getOutdated flags outdatedPackages lastIndex).flags.scope =
        some (normalizeScope s0)) ∧
    (flags.latest = false →
      (getOutdated flags outdatedPackages lastIndex).flags.tilde = false ∧
      (getOutdated flags outdatedPackages lastIndex).flags.exact = false ∧
      (getOutdated flags outdatedPackages lastIndex).flags.caret = false) ∧
    (flags.latest = true →
      (getOutdated flags outdatedPackages lastIndex).flags.tilde = flags.tilde ∧
      (getOutdated flags outdatedPackages lastIndex).flags.exact = flags.exact ∧
      (getOutdated flags outdatedPackages lastIndex).flags.caret = flags.caret) := by
  refine ⟨?_, ?_, ?_, ?_, ?_, ?_, ?_⟩
  · rw [getOutdated_flags_eq, latestFlagsStep_latest, scopeStep_flags_latest]
  · rw [getOutdated_flags_eq, latestFlagsStep_others, scopeStep_flags_others]
  · intro h
    rw [getOutdated_flags_eq, latestFlagsStep_scope]
    exact scopeStep_scope_none _ _ h
  · intro h
    rw [getOutdated_flags_eq, latestFlagsStep_scope]
    exact scopeStep_scope_empty _ _ h
  · intro s0 h h0
    rw [getOutdated_flags_eq, latestFlagsStep_scope]
    exact scopeStep_scope_some _ _ h h0
  · intro hl
    have hSl : (scopeStep flags (outdatedFilter flags outdatedPackages)
        lastIndex).flags.latest = false := by
      rw [scopeStep_flags_latest]; exact hl
    rw [getOutdated_flags_eq, latestFlagsStep_false hSl]
    exact ⟨rfl, rfl, rfl⟩
  · intro hl
    have hSl : (scopeStep flags (outdatedFilter flags outdatedPackages)
        lastIndex).flags.latest = true := by
      rw [scopeStep_flags_latest]; exact hl
    rw [getOutdated_flags_eq, latestFlagsStep_of_latest hSl]
    exact ⟨scopeStep_flags_tilde flags _ lastIndex, scopeStep_flags_exact flags _ lastIndex,
      scopeStep_flags_caret flags _ lastIndex⟩

/-- C10 witness: `--scope foo` without `--latest` leaves the call with
`scope = "@foo/"` and `tilde` cleared. -/
theorem getOutdated_mutates_flags_frame_witness :
    (getOutdated c4Flags scopedPackages 0).flags.scope = some "@foo/" ∧
    (getOutdated c4Flags scopedPackages 0).flags.tilde = false := by
  have h := getOutdated_mutates_flags_frame c4Flags scopedPackages 0
  exact ⟨h.2.2.2.2.1 "foo" rfl (by decide), (h.2.2.2.2.2.1 rfl).1⟩

end Claims
